import Mathlib

/-!
Verification of the ansible-sign CLI (src/ansible_signatory/cli.py) against its
natural-language specification.

The embedding models the Python module cli.py directly.  The checksum module
(ChecksumFile, ChecksumMismatch, the differ classes) is imported by cli.py but
is not part of the sources; wherever one of its operations is needed, the
definition below is modelled from the specification and its doc comment says so.

The filesystem is modelled as a record of pure functions; raising a Python
exception is modelled by the error side of an Except value.  The handler
validate_checksum additionally returns a trace of the filesystem and
checksum-module interactions it performed, in program order, so that ordering
claims (what is consulted before what, and what is never touched) can be
stated.
-/

/-- The two differ classes exported by ansible_signatory.checksum.differ and
referenced by cli.py.  Their enumeration behaviour is modelled from the spec
further below; here only their identity matters. -/
inductive Differ
  | GitChecksumFileExistenceDiffer
  | DirectoryChecksumFileExistenceDiffer
  deriving DecidableEq

/-- A pure model of the filesystem as seen by the program.  isDir tells whether
a path is a directory; contents gives the bytes of a regular file (none when no
regular file is at the path); children gives the names of the immediate entries
of a directory.  The fields tracked and walkFiles stand for the authoritative
file sets of the two differs (modelled from the spec: the differ
implementations are not in the sources). -/
structure FS where
  isDir : String → Bool
  contents : String → Option String
  children : String → List String
  tracked : String → List String
  walkFiles : String → List String

/-- os.path.exists: true for directories and regular files alike. -/
def FS.pathExists (fs : FS) (p : String) : Bool :=
  fs.isDir p || (fs.contents p).isSome

/-- Fatal manifest-parsing errors, from the spec taxonomy. -/
inductive ParseError
  | ManifestMalformed
  | DuplicateManifestEntry
  deriving DecidableEq

/-- Fatal enumeration and generation errors, from the spec taxonomy. -/
inductive GenError
  | ProjectRootInvalid
  | FileUnreadable
  deriving DecidableEq

/-- Python exceptions that can escape the validate_checksum handler. -/
inductive PyExc
  | osListdirError
  | openReadError
  | keyError
  | parseExc (e : ParseError)
  | verifyExc (e : GenError)
  deriving DecidableEq

/-- DIFFER_MAP of cli.py: the dict from scm key to differ class, as an
association list (insertion order preserved, as in the Python dict). -/
def DIFFER_MAP : List (String × Differ) :=
  [("git", Differ.GitChecksumFileExistenceDiffer),
   ("directory", Differ.DirectoryChecksumFileExistenceDiffer)]

/-- determine_differ_from_auto of cli.py: list the immediate entries of the
project root (os.listdir raises when the root is missing or not a directory,
modelled by the error case); select the git differ exactly when an entry named
.git is present, the directory differ otherwise.  root_files is inlined. -/
def determine_differ_from_auto (fs : FS) (project_root : String) :
    Except PyExc Differ :=
  if fs.isDir project_root then
    if (fs.children project_root).contains ".git" then
      Except.ok Differ.GitChecksumFileExistenceDiffer
    else
      Except.ok Differ.DirectoryChecksumFileExistenceDiffer
  else
    Except.error PyExc.osListdirError

/-- get_differ of cli.py: automatic detection for the auto key, otherwise a
plain DIFFER_MAP lookup (a missing key would raise KeyError; cli.py notes the
key is guaranteed by the argparse choices). -/
def get_differ (fs : FS) (scm : String) (project_root : String) :
    Except PyExc Differ :=
  if scm = "auto" then
    determine_differ_from_auto fs project_root
  else
    match DIFFER_MAP.lookup scm with
    | some d => Except.ok d
    | none => Except.error PyExc.keyError

/-- One line of a checksum manifest: a hex digest and a root-relative path. -/
structure ManifestEntry where
  digest : String
  path : String
  deriving DecidableEq

/-- Modelled from the spec: the checksum module is not in the sources.  The
supported algorithms form a closed enumerated set, sha256 as the default plus
sha1, sha512 and md5 as legacy modes. -/
def ChecksumFile.MODES : List String := ["sha256", "sha1", "sha512", "md5"]

/-- Modelled from the spec: the default algorithm of ChecksumFile is the
256-bit mode. -/
def ChecksumFile.defaultAlgorithm : String := "sha256"

/-- Modelled from the spec: the canonical hex-digest length of each supported
algorithm. -/
def digestLength (algorithm : String) : Nat :=
  if algorithm = "sha256" then 64
  else if algorithm = "sha1" then 40
  else if algorithm = "sha512" then 128
  else if algorithm = "md5" then 32
  else 0

/-- A hexadecimal digit, upper or lower case. -/
def isHexChar (c : Char) : Bool :=
  c.isDigit || ('a' ≤ c && c ≤ 'f') || ('A' ≤ c && c ≤ 'F')

/-- Splitting a character list at every two-space separator, the manifest
column separator of the spec format (the counterpart of splitting a string on
a two-space sub-string). -/
def splitOnTwoSpaces : List Char → List (List Char)
  | [] => [[]]
  | [c] => [[c]]
  | a :: b :: rest =>
    if a == ' ' && b == ' ' then [] :: splitOnTwoSpaces rest
    else
      match splitOnTwoSpaces (b :: rest) with
      | [] => [[a]]
      | x :: xs => (a :: x) :: xs

/-- Splitting a character list into lines at every newline character. -/
def splitLines : List Char → List (List Char)
  | [] => [[]]
  | c :: cs =>
    if c == '\n' then [] :: splitLines cs
    else
      match splitLines cs with
      | [] => [[c]]
      | x :: xs => (c :: x) :: xs

/-- Modelled from the spec: one line of ManifestCodec.parse.  Blank lines are
skipped; a line must split into exactly a digest token and a path token on the
two-space separator; the digest must be hexadecimal and of the length of the
configured algorithm. -/
def parseLine (algorithm : String) (line : List Char) :
    Except ParseError (Option ManifestEntry) :=
  if line.isEmpty then
    Except.ok none
  else
    match splitOnTwoSpaces line with
    | [digest, path] =>
      if digest.length == digestLength algorithm && digest.all isHexChar
          && !path.isEmpty then
        Except.ok (some { digest := String.mk digest,
                          path := String.mk path })
      else
        Except.error ParseError.ManifestMalformed
    | _ => Except.error ParseError.ManifestMalformed

/-- Modelled from the spec: ManifestCodec.parse (the checksum module is not in
the sources).  Lines are processed in order; a repeated path is a
DuplicateManifestEntry failure; entries keep manifest order. -/
def ChecksumFile.parse (algorithm : String) (text : String) :
    Except ParseError (List ManifestEntry) :=
  (splitLines text.data).foldlM (fun acc line =>
    match parseLine algorithm line with
    | Except.error e => Except.error e
    | Except.ok none => Except.ok acc
    | Except.ok (some entry) =>
      if acc.any (fun a => a.path == entry.path) then
        Except.error ParseError.DuplicateManifestEntry
      else
        Except.ok (acc ++ [entry])) []

/-- Joining the project root with a root-relative manifest path. -/
def joinPath (root p : String) : String := root ++ "/" ++ p

/-- Modelled from the spec: FileExistenceDiffer.enumerate (the differ
implementations are not in the sources).  The git differ returns the tracked
file set, the directory differ every regular file of a recursive walk; both
fail with ProjectRootInvalid when the root is missing or not a directory and
never return a file set for such a root. -/
def Differ.enumerate (d : Differ) (fs : FS) (root : String) :
    Except GenError (List String) :=
  if fs.isDir root then
    match d with
    | Differ.GitChecksumFileExistenceDiffer => Except.ok (fs.tracked root)
    | Differ.DirectoryChecksumFileExistenceDiffer => Except.ok (fs.walkFiles root)
  else
    Except.error GenError.ProjectRootInvalid

/-- The digest computation of DigestEngine, abstracted: from an algorithm name
and the bytes of a file to a hex digest.  Modelled from the spec: the digest
pipeline is not in the sources, and the claims below hold for every digest
function. -/
abbrev DigestFn := String → String → String

/-- Modelled from the spec: ChecksumFile.generate enumerates via the differ and
only then digests each returned path; an unreadable file is a FileUnreadable
failure. -/
def ChecksumFile.generate (dFn : DigestFn) (fs : FS) (root : String)
    (d : Differ) (algorithm : String) : Except GenError (List ManifestEntry) :=
  match d.enumerate fs root with
  | Except.error e => Except.error e
  | Except.ok files =>
    files.foldlM (fun acc p =>
      match fs.contents (joinPath root p) with
      | some c => Except.ok (acc ++ [{ digest := dFn algorithm c, path := p }])
      | none => Except.error GenError.FileUnreadable) []

/-- The three discrepancy categories of a verification mismatch. -/
inductive Category
  | changed
  | added
  | removed
  deriving DecidableEq

/-- One reported discrepancy: its category and the affected path. -/
structure Discrepancy where
  cat : Category
  path : String
  deriving DecidableEq

/-- The user-visible label of each category. -/
def Category.label : Category → String
  | Category.changed => "changed"
  | Category.added => "added"
  | Category.removed => "removed"

/-- Modelled from the spec: the string form of a ChecksumMismatch lists every
discrepancy with its category and path, one line each. -/
def renderDiscrepancy (d : Discrepancy) : String :=
  d.cat.label ++ ": " ++ d.path

/-- Outcome of a verification pass: success, or a mismatch carrying every
recorded discrepancy. -/
inductive VerifyResult
  | success
  | mismatch (discrepancies : List Discrepancy)
  deriving DecidableEq

/-- The removed discrepancies of a verification pass: manifest paths whose
file no longer exists on disk. -/
def removedOf (fs : FS) (root : String) (manifest : List ManifestEntry) :
    List Discrepancy :=
  (manifest.filter fun e => (fs.contents (joinPath root e.path)).isNone).map
    fun e => Discrepancy.mk Category.removed e.path

/-- The changed discrepancies of a verification pass: manifest paths that
still exist but whose recomputed digest differs from the recorded one. -/
def changedOf (dFn : DigestFn) (fs : FS) (root : String) (algorithm : String)
    (manifest : List ManifestEntry) : List Discrepancy :=
  (manifest.filter fun e =>
    match fs.contents (joinPath root e.path) with
    | some c => dFn algorithm c != e.digest
    | none => false).map
  fun e => Discrepancy.mk Category.changed e.path

/-- The added discrepancies of a verification pass: authoritative paths absent
from the manifest. -/
def addedOf (manifest : List ManifestEntry) (files : List String) :
    List Discrepancy :=
  (files.filter fun p => !(manifest.any fun en => en.path == p)).map
    fun p => Discrepancy.mk Category.added p

/-- Success when no discrepancy was recorded, otherwise a mismatch carrying
every recorded discrepancy. -/
def mkOutcome (ds : List Discrepancy) : VerifyResult :=
  if ds.isEmpty then VerifyResult.success else VerifyResult.mismatch ds

/-- Modelled from the spec: ChecksumFile.verify.  Every manifest path whose
file vanished is removed; every existing manifest path whose recomputed digest
differs is changed; when the diff flag is set the authoritative set is
requested from the differ (a failing enumeration aborts the pass) and its
paths missing from the manifest are added; with the flag unset no added
discrepancies exist.  All discrepancies are collected, and an empty collection
is success. -/
def ChecksumFile.verify (dFn : DigestFn) (fs : FS) (root : String) (d : Differ)
    (algorithm : String) (manifest : List ManifestEntry) (diff : Bool) :
    Except GenError VerifyResult :=
  if diff then
    match d.enumerate fs root with
    | Except.error e => Except.error e
    | Except.ok files =>
      Except.ok (mkOutcome (changedOf dFn fs root algorithm manifest
        ++ addedOf manifest files ++ removedOf fs root manifest))
  else
    Except.ok (mkOutcome (changedOf dFn fs root algorithm manifest
      ++ removedOf fs root manifest))

/-- The events a handler run can perform, in program order: listing the
project root (inside determine_differ_from_auto), the os.path.exists check on
the checksum file, opening and reading it, parsing it, and the verify call
with its diff argument. -/
inductive Event
  | listdirRoot (path : String)
  | checkExists (path : String)
  | openRead (path : String)
  | parseManifest
  | verifyCall (diff : Bool)
  deriving DecidableEq

/-- What a handler produces: its explicit return value (none models a Python
function falling off the end and returning None) and the printed lines. -/
structure CliResult where
  exit : Option Nat
  output : List String
  deriving DecidableEq

/-- The argparse namespace of the validate-checksum subcommand. -/
structure ValidateArgs where
  checksum_file : String
  scm : String
  ignore_file_list_differences : Bool
  project_root : String
  deriving DecidableEq

/-- The argparse namespace of the validate-gpg-signature subcommand. -/
structure GpgArgs where
  signature_file : String
  checksum_file : String
  deriving DecidableEq

/-- The argparse namespace of the checksum-manifest subcommand (it has no
positional argument in cli.py). -/
structure ManifestArgs where
  algorithm : String
  output : String
  scm : String
  deriving DecidableEq

/-- argparse rejection of a value outside a choices list (argparse exits with
an error before any handler runs). -/
inductive ArgError
  | invalidChoice
  deriving DecidableEq

/-- The scm choices of cli.py: list(DIFFER_MAP.keys()) + the auto key. -/
def scm_choices : List String := DIFFER_MAP.map Prod.fst ++ ["auto"]

/-- Embeds the validate-checksum subparser of parse_args in cli.py.  Each
option input is the optionally supplied value (none when omitted, replaced by
the argparse default); ignore_given records whether the store_true flag
appeared on the command line (its default is False).  A supplied scm value
outside the choices list is rejected. -/
def parse_args_validate_checksum (checksum_file : Option String)
    (scm : Option String) (ignore_given : Bool) (project_root : String) :
    Except ArgError ValidateArgs :=
  match scm with
  | some s =>
    if scm_choices.contains s then
      Except.ok { checksum_file := checksum_file.getD "sha256sum.txt",
                  scm := s,
                  ignore_file_list_differences := ignore_given,
                  project_root := project_root }
    else
      Except.error ArgError.invalidChoice
  | none =>
    Except.ok { checksum_file := checksum_file.getD "sha256sum.txt",
                scm := "auto",
                ignore_file_list_differences := ignore_given,
                project_root := project_root }

/-- Embeds the validate-gpg-signature subparser of parse_args in cli.py: the
optional detached-signature file defaults to sha256sum.txt.sig and the
checksum file is positional; there is no choices restriction and no project
root. -/
def parse_args_validate_gpg_signature (signature_file : Option String)
    (checksum_file : String) : GpgArgs :=
  { signature_file := signature_file.getD "sha256sum.txt.sig",
    checksum_file := checksum_file }

/-- Whether a supplied algorithm value passes the argparse choices check of
the checksum-manifest subparser (an omitted value always passes and takes the
default). -/
def algChoiceOk (algorithm : Option String) : Bool :=
  match algorithm with
  | some a => ChecksumFile.MODES.contains a
  | none => true

/-- Whether a supplied scm value passes the argparse choices check shared by
the validate-checksum and checksum-manifest subparsers. -/
def scmChoiceOk (scm : Option String) : Bool :=
  match scm with
  | some s => scm_choices.contains s
  | none => true

/-- Embeds the checksum-manifest subparser of parse_args in cli.py: algorithm
restricted to ChecksumFile.MODES with default sha256, output defaulting to -,
scm restricted like validate-checksum with default auto. -/
def parse_args_checksum_manifest (algorithm : Option String)
    (output : Option String) (scm : Option String) :
    Except ArgError ManifestArgs :=
  if algChoiceOk algorithm && scmChoiceOk scm then
    Except.ok { algorithm := algorithm.getD "sha256",
                output := output.getD "-",
                scm := scm.getD "auto" }
  else
    Except.error ArgError.invalidChoice

/-- validate_gpg_signature of cli.py: prints the fixed string hi and returns
None, for every argument namespace. -/
def validate_gpg_signature (_args : GpgArgs) : Option Nat × List String :=
  (none, ["hi"])

/-- checksum_manifest of cli.py: prints the fixed string hi and returns None,
for every argument namespace. -/
def checksum_manifest (_args : ManifestArgs) : Option Nat × List String :=
  (none, ["hi"])

/-- The project-root listing performed while selecting the differ: exactly one
os.listdir on the project root when scm is auto (inside
determine_differ_from_auto), and none otherwise. -/
def differTrace (args : ValidateArgs) : List Event :=
  if args.scm = "auto" then [Event.listdirRoot args.project_root] else []

/-- Embeds validate_checksum of cli.py.  The first component is the handler
outcome: an escaped Python exception, or the explicit return value (None on
the success path) with the printed lines.  The second component is the trace
of interactions, in program order: differ selection first, then the existence
check on the checksum file, then (only when it exists) open and read, parse,
and the verify call with diff equal to the negation of the
ignore_file_list_differences flag.  ChecksumFile is constructed with its
default algorithm; parse and verify are the spec-modelled operations above. -/
def validate_checksum (dFn : DigestFn) (fs : FS) (args : ValidateArgs) :
    Except PyExc CliResult × List Event :=
  match get_differ fs args.scm args.project_root with
  | Except.error e => (Except.error e, differTrace args)
  | Except.ok d =>
    if fs.pathExists args.checksum_file = false then
      (Except.ok { exit := some 1,
                   output := ["Checksum file does not exist: "
                     ++ args.checksum_file] },
       differTrace args ++ [Event.checkExists args.checksum_file])
    else
      match fs.contents args.checksum_file with
      | none =>
        (Except.error PyExc.openReadError,
         differTrace args ++ [Event.checkExists args.checksum_file,
           Event.openRead args.checksum_file])
      | some text =>
        match ChecksumFile.parse ChecksumFile.defaultAlgorithm text with
        | Except.error e =>
          (Except.error (PyExc.parseExc e),
           differTrace args ++ [Event.checkExists args.checksum_file,
             Event.openRead args.checksum_file, Event.parseManifest])
        | Except.ok manifest =>
          match ChecksumFile.verify dFn fs args.project_root d
              ChecksumFile.defaultAlgorithm manifest
              (!args.ignore_file_list_differences) with
          | Except.error e =>
            (Except.error (PyExc.verifyExc e),
             differTrace args ++ [Event.checkExists args.checksum_file,
               Event.openRead args.checksum_file, Event.parseManifest,
               Event.verifyCall (!args.ignore_file_list_differences)])
          | Except.ok (VerifyResult.mismatch ds) =>
            (Except.ok { exit := some 2,
                         output := "Checksum validation FAILED!"
                           :: ds.map renderDiscrepancy },
             differTrace args ++ [Event.checkExists args.checksum_file,
               Event.openRead args.checksum_file, Event.parseManifest,
               Event.verifyCall (!args.ignore_file_list_differences)])
          | Except.ok VerifyResult.success =>
            (Except.ok { exit := none,
                         output := ["Checksum validation SUCCEEDED!"] },
             differTrace args ++ [Event.checkExists args.checksum_file,
               Event.openRead args.checksum_file, Event.parseManifest,
               Event.verifyCall (!args.ignore_file_list_differences)])

/-- A filesystem with nothing in it. -/
def emptyFS : FS :=
  { isDir := fun _ => false, contents := fun _ => none,
    children := fun _ => [], tracked := fun _ => [], walkFiles := fun _ => [] }

/-- A project root r whose immediate children include a directory named .git. -/
def fsGitDir : FS :=
  { isDir := fun p => p == "r" || p == "r/.git",
    contents := fun _ => none,
    children := fun p => if p == "r" then [".git", "a.txt"] else [],
    tracked := fun _ => [], walkFiles := fun _ => [] }

/-- A project root r whose only child named .git is a regular file, not a
directory. -/
def fsGitFile : FS :=
  { isDir := fun p => p == "r",
    contents := fun p => if p == "r/.git" then some "gitdir: elsewhere"
      else none,
    children := fun p => if p == "r" then [".git"] else [],
    tracked := fun _ => [], walkFiles := fun _ => [] }

/-- A project root r with a .git directory nested one level deeper (under
r/sub) and no .git among the immediate children of r. -/
def fsNestedGit : FS :=
  { isDir := fun p => p == "r" || p == "r/sub" || p == "r/sub/.git",
    contents := fun _ => none,
    children := fun p => if p == "r" then ["sub"]
      else if p == "r/sub" then [".git"] else [],
    tracked := fun _ => [], walkFiles := fun _ => [] }

/-- A 64-character hex string, the sha256 digest shape. -/
def hex64 : String := String.mk (List.replicate 64 'a')

/-- A digest function returning hex64 for every input, used for concrete
scenario evaluation. -/
def dFnConst : DigestFn := fun _ _ => hex64

/-- A well-formed one-entry manifest text for the file f.txt. -/
def manifestTextOk : String := hex64 ++ "  f.txt" ++ "\n"

/-- A filesystem with project root r holding f.txt whose digest (under
dFnConst) matches manifestTextOk, and the manifest stored at m.txt relative to
the working directory. -/
def fsOk : FS :=
  { isDir := fun p => p == "r",
    contents := fun p =>
      if p == "m.txt" then some manifestTextOk
      else if p == "r/f.txt" then some "x" else none,
    children := fun p => if p == "r" then ["f.txt"] else [],
    tracked := fun _ => ["f.txt"], walkFiles := fun _ => ["f.txt"] }

/-- The validate-checksum namespace of the concrete success scenario: explicit
directory differ, manifest at m.txt, reconciliation switched off. -/
def argsOk : ValidateArgs :=
  { checksum_file := "m.txt", scm := "directory",
    ignore_file_list_differences := true, project_root := "r" }

/-- The validate-checksum namespace of the concrete missing-manifest scenario:
all argparse defaults except an explicit directory differ and project root r. -/
def argsMissing : ValidateArgs :=
  { checksum_file := "sha256sum.txt", scm := "directory",
    ignore_file_list_differences := false, project_root := "r" }

theorem mem_differTrace_iff (e : Event) (args : ValidateArgs) :
    e ∈ differTrace args ↔
      (args.scm = "auto" ∧ e = Event.listdirRoot args.project_root) := by
  unfold differTrace
  split
  · rename_i h
    simp [h]
  · rename_i h
    simp [h]

theorem validate_checksum_trace_cases (dFn : DigestFn) (fs : FS)
    (args : ValidateArgs) :
    (validate_checksum dFn fs args).2 = differTrace args ∨
    (validate_checksum dFn fs args).2 =
      differTrace args ++ [Event.checkExists args.checksum_file] ∨
    (validate_checksum dFn fs args).2 =
      differTrace args ++ [Event.checkExists args.checksum_file,
        Event.openRead args.checksum_file] ∨
    (validate_checksum dFn fs args).2 =
      differTrace args ++ [Event.checkExists args.checksum_file,
        Event.openRead args.checksum_file, Event.parseManifest] ∨
    (validate_checksum dFn fs args).2 =
      differTrace args ++ [Event.checkExists args.checksum_file,
        Event.openRead args.checksum_file, Event.parseManifest,
        Event.verifyCall (!args.ignore_file_list_differences)] := by
  unfold validate_checksum
  split
  · exact Or.inl rfl
  · split
    · exact Or.inr (Or.inl rfl)
    · split
      · exact Or.inr (Or.inr (Or.inl rfl))
      · split
        · exact Or.inr (Or.inr (Or.inr (Or.inl rfl)))
        · split
          · exact Or.inr (Or.inr (Or.inr (Or.inr rfl)))
          · exact Or.inr (Or.inr (Or.inr (Or.inr rfl)))
          · exact Or.inr (Or.inr (Or.inr (Or.inr rfl)))

/-- Claim C1: with the auto choice the CLI inspects only the immediate
children of the project root, selecting the git differ exactly when an entry
named .git is present and the directory differ otherwise; for the explicit
choices git and directory the selection is a constant of the choice, the same
for every filesystem and every root, so the project root is never inspected
and the explicit choice always overrides auto-detection. -/
theorem C1_differ_auto_selection :
    (∀ fs root, fs.isDir root = true →
      get_differ fs "auto" root =
        Except.ok (if (fs.children root).contains ".git" = true then
            Differ.GitChecksumFileExistenceDiffer
          else Differ.DirectoryChecksumFileExistenceDiffer)) ∧
    (∀ fs root, get_differ fs "git" root =
        Except.ok Differ.GitChecksumFileExistenceDiffer) ∧
    (∀ fs root, get_differ fs "directory" root =
        Except.ok Differ.DirectoryChecksumFileExistenceDiffer) := by
  refine ⟨?_, fun fs root => rfl, fun fs root => rfl⟩
  intro fs root h
  simp [get_differ, determine_differ_from_auto, h]
  split <;> rfl

theorem C1_witness :
    fsGitDir.isDir "r" = true ∧
    get_differ fsGitDir "auto" "r" =
      Except.ok Differ.GitChecksumFileExistenceDiffer := by
  refine ⟨rfl, ?_⟩
  have h := C1_differ_auto_selection.1 fsGitDir "r" rfl
  exact h.trans (by rfl)

/-- Claim C8: auto-detection keys only on the literal name .git among the
immediate children of the project root: the decision is determined by the
children of the root alone (so a .git nested deeper, or any other marker name,
never selects the git differ), with no check that the entry is a directory (a
regular file named .git selects the git differ, witnessed by fsGitFile). -/
theorem C8_git_marker_is_literal_name :
    (∀ fs root, fs.isDir root = true →
      (determine_differ_from_auto fs root =
          Except.ok Differ.GitChecksumFileExistenceDiffer ↔
        (fs.children root).contains ".git" = true)) ∧
    (∀ fs fs2 root, fs.isDir root = fs2.isDir root →
      fs.children root = fs2.children root →
      determine_differ_from_auto fs root =
        determine_differ_from_auto fs2 root) ∧
    determine_differ_from_auto fsGitFile "r" =
      Except.ok Differ.GitChecksumFileExistenceDiffer ∧
    fsGitFile.isDir "r/.git" = false ∧
    (fsGitFile.contents "r/.git").isSome = true ∧
    determine_differ_from_auto fsNestedGit "r" =
      Except.ok Differ.DirectoryChecksumFileExistenceDiffer ∧
    fsNestedGit.children "r/sub" = [".git"] := by
  refine ⟨?_, ?_, rfl, rfl, rfl, rfl, rfl⟩
  · intro fs root h
    by_cases hg : (fs.children root).contains ".git" = true
    · simp [determine_differ_from_auto, h, hg]
    · simp [determine_differ_from_auto, h, hg]
  · intro fs fs2 root h1 h2
    unfold determine_differ_from_auto
    rw [h1, h2]

theorem C8_witness :
    fsGitFile.isDir "r" = true ∧
    (determine_differ_from_auto fsGitFile "r" =
        Except.ok Differ.GitChecksumFileExistenceDiffer ↔
      (fsGitFile.children "r").contains ".git" = true) :=
  ⟨rfl, C8_git_marker_is_literal_name.1 fsGitFile "r" rfl⟩

/-- Claim C3: on a project root that is missing or not a directory, every
differ fails enumeration with ProjectRootInvalid and never returns any file
set (in particular never an empty one), and generate fails the same way for
every digest function, so the failure happens before any file hashing.
Modelled from the spec: the checksum module is not in the sources. -/
theorem C3_invalid_root_aborts_before_hashing :
    (∀ d fs root, fs.isDir root = false →
      Differ.enumerate d fs root = Except.error GenError.ProjectRootInvalid) ∧
    (∀ d fs root l, fs.isDir root = false →
      Differ.enumerate d fs root ≠ Except.ok l) ∧
    (∀ d fs root alg dFn, fs.isDir root = false →
      ChecksumFile.generate dFn fs root d alg =
        Except.error GenError.ProjectRootInvalid) := by
  refine ⟨?_, ?_, ?_⟩
  · intro d fs root h
    simp [Differ.enumerate, h]
  · intro d fs root l h
    simp [Differ.enumerate, h]
  · intro d fs root alg dFn h
    simp [ChecksumFile.generate, Differ.enumerate, h]

theorem C3_witness :
    emptyFS.isDir "missing" = false ∧
    Differ.enumerate Differ.DirectoryChecksumFileExistenceDiffer emptyFS
        "missing" = Except.error GenError.ProjectRootInvalid :=
  ⟨rfl, C3_invalid_root_aborts_before_hashing.1
      Differ.DirectoryChecksumFileExistenceDiffer emptyFS "missing" rfl⟩

/-- Claim C4: the supported algorithms form the closed enumerated set
ChecksumFile.MODES with sha256 among them as the default; every algorithm name
outside the set is rejected by the checksum-manifest argument parser, which
consults no filesystem at all, so rejection happens before any file is walked
or hashed.  MODES is modelled from the spec: the checksum module is not in the
sources. -/
theorem C4_closed_algorithm_set :
    ChecksumFile.MODES = ["sha256", "sha1", "sha512", "md5"] ∧
    (∀ alg output scm, ChecksumFile.MODES.contains alg = false →
      parse_args_checksum_manifest (some alg) output scm =
        Except.error ArgError.invalidChoice) ∧
    (∀ output scm args, parse_args_checksum_manifest none output scm =
        Except.ok args → args.algorithm = "sha256") ∧
    ChecksumFile.MODES.contains "sha256" = true := by
  refine ⟨rfl, ?_, ?_, rfl⟩
  · intro alg output scm h
    have ha : algChoiceOk (some alg) = false := by
      simp only [algChoiceOk]
      exact h
    simp [parse_args_checksum_manifest, ha]
  · intro output scm args h
    simp only [parse_args_checksum_manifest] at h
    split at h
    · injection h with h2
      rw [← h2]
      rfl
    · exact absurd h (by simp)

theorem C4_witness :
    ChecksumFile.MODES.contains "sha384" = false ∧
    parse_args_checksum_manifest (some "sha384") none none =
      Except.error ArgError.invalidChoice :=
  ⟨rfl, C4_closed_algorithm_set.2.1 "sha384" none none rfl⟩

/-- Claim C6: the scm choices list of cli.py is exactly git, directory, auto;
both the validate-checksum and checksum-manifest subparsers reject any scm
value outside it and default an omitted scm to auto; every accepted
checksum-manifest algorithm lies in ChecksumFile.MODES with sha256 as the
default when the flag is omitted; and the default algorithm of ChecksumFile
(used by validate-checksum, which has no algorithm flag) is sha256, a member
of MODES.  MODES and the ChecksumFile default are modelled from the spec. -/
theorem C6_cli_defaults :
    scm_choices = ["git", "directory", "auto"] ∧
    (∀ cf s ig root, scm_choices.contains s = false →
      parse_args_validate_checksum cf (some s) ig root =
        Except.error ArgError.invalidChoice) ∧
    (∀ cf scm ig root args, parse_args_validate_checksum cf scm ig root =
        Except.ok args → scm_choices.contains args.scm = true) ∧
    (∀ cf ig root args, parse_args_validate_checksum cf none ig root =
        Except.ok args → args.scm = "auto") ∧
    (∀ a o s, scm_choices.contains s = false →
      parse_args_checksum_manifest a o (some s) =
        Except.error ArgError.invalidChoice) ∧
    (∀ a o scm args, parse_args_checksum_manifest a o scm = Except.ok args →
      ChecksumFile.MODES.contains args.algorithm = true ∧
        scm_choices.contains args.scm = true) ∧
    (∀ a o args, parse_args_checksum_manifest a o none = Except.ok args →
      args.scm = "auto") ∧
    (∀ o scm args, parse_args_checksum_manifest none o scm = Except.ok args →
      args.algorithm = "sha256") ∧
    ChecksumFile.defaultAlgorithm = "sha256" ∧
    ChecksumFile.MODES.contains ChecksumFile.defaultAlgorithm = true := by
  refine ⟨rfl, ?_, ?_, ?_, ?_, ?_, ?_, ?_, rfl, rfl⟩
  · intro cf s ig root h
    simp only [parse_args_validate_checksum]
    rw [h]
    rfl
  · intro cf scm ig root args h
    cases scm with
    | none =>
      simp only [parse_args_validate_checksum] at h
      injection h with h2
      rw [← h2]
      rfl
    | some s =>
      simp only [parse_args_validate_checksum] at h
      split at h
      · rename_i hcond
        injection h with h2
        rw [← h2]
        exact hcond
      · exact absurd h (by simp)
  · intro cf ig root args h
    simp only [parse_args_validate_checksum] at h
    injection h with h2
    rw [← h2]
  · intro a o s h
    have hs : scmChoiceOk (some s) = false := by
      simp only [scmChoiceOk]
      exact h
    simp [parse_args_checksum_manifest, hs]
  · intro a o scm args h
    simp only [parse_args_checksum_manifest] at h
    split at h
    · rename_i hcond
      rw [Bool.and_eq_true] at hcond
      injection h with h2
      rw [← h2]
      constructor
      · cases a with
        | none => rfl
        | some x => simpa [algChoiceOk] using hcond.1
      · cases scm with
        | none => rfl
        | some x => simpa [scmChoiceOk] using hcond.2
    · exact absurd h (by simp)
  · intro a o args h
    simp only [parse_args_checksum_manifest] at h
    split at h
    · injection h with h2
      rw [← h2]
      rfl
    · exact absurd h (by simp)
  · intro o scm args h
    simp only [parse_args_checksum_manifest] at h
    split at h
    · injection h with h2
      rw [← h2]
      rfl
    · exact absurd h (by simp)

theorem C6_witness :
    scm_choices.contains "svn" = false ∧
    parse_args_validate_checksum none (some "svn") false "r" =
      Except.error ArgError.invalidChoice :=
  ⟨rfl, C6_cli_defaults.2.1 none "svn" false "r" rfl⟩

/-- Claim C7: the validate-gpg-signature and checksum-manifest handlers are
unimplemented: for every argument namespace each prints only the fixed string
hi and returns no exit code (None), performing no signature validation and no
manifest generation, even though the checksum-manifest subparser accepts the
algorithm, output and scm flags. -/
theorem C7_unimplemented_subcommands :
    (∀ a : GpgArgs, validate_gpg_signature a = (none, ["hi"])) ∧
    (∀ a : ManifestArgs, checksum_manifest a = (none, ["hi"])) ∧
    parse_args_checksum_manifest (some "sha512") (some "out.txt")
        (some "git") =
      Except.ok { algorithm := "sha512", output := "out.txt", scm := "git" } :=
  ⟨fun _ => rfl, fun _ => rfl, rfl⟩

/-- Claim C9: in validate_checksum the differ selection comes first: with scm
auto it lists the project root even when the checksum file is missing (a bad
root escapes as the os.listdir exception before the existence check), and when
the selected differ is obtained and the checksum file does not exist the
handler returns 1 with only the selection listing and the existence check in
its trace, performing no open, no read, no parse and no verify call. -/
theorem C9_differ_selection_before_existence_check :
    (∀ dFn fs args d, get_differ fs args.scm args.project_root = Except.ok d →
      fs.pathExists args.checksum_file = false →
      validate_checksum dFn fs args =
        (Except.ok { exit := some 1,
                     output := ["Checksum file does not exist: "
                       ++ args.checksum_file] },
         differTrace args ++ [Event.checkExists args.checksum_file])) ∧
    (∀ dFn fs args, args.scm = "auto" → fs.isDir args.project_root = false →
      validate_checksum dFn fs args =
        (Except.error PyExc.osListdirError,
         [Event.listdirRoot args.project_root])) ∧
    (∀ args : ValidateArgs, ∀ p b,
      Event.openRead p ∉
        differTrace args ++ [Event.checkExists args.checksum_file] ∧
      Event.parseManifest ∉
        differTrace args ++ [Event.checkExists args.checksum_file] ∧
      Event.verifyCall b ∉
        differTrace args ++ [Event.checkExists args.checksum_file]) := by
  refine ⟨?_, ?_, ?_⟩
  · intro dFn fs args d h1 h2
    simp [validate_checksum, h1, h2]
  · intro dFn fs args hscm hdir
    have hgd : get_differ fs args.scm args.project_root =
        Except.error PyExc.osListdirError := by
      rw [hscm]
      simp [get_differ, determine_differ_from_auto, hdir]
    have ht : differTrace args = [Event.listdirRoot args.project_root] := by
      simp [differTrace, hscm]
    simp [validate_checksum, hgd, ht]
  · intro args p b
    refine ⟨?_, ?_, ?_⟩ <;> simp [mem_differTrace_iff]

theorem C9_witness :
    get_differ fsGitDir "directory" "r" =
      Except.ok Differ.DirectoryChecksumFileExistenceDiffer ∧
    fsGitDir.pathExists "sha256sum.txt" = false ∧
    validate_checksum dFnConst fsGitDir argsMissing =
      (Except.ok { exit := some 1,
                   output := ["Checksum file does not exist: sha256sum.txt"] },
       [Event.checkExists "sha256sum.txt"]) := by
  refine ⟨rfl, rfl, ?_⟩
  have h := C9_differ_selection_before_existence_check.1 dFnConst fsGitDir
      argsMissing Differ.DirectoryChecksumFileExistenceDiffer rfl rfl
  exact h.trans (by rfl)

/-- Claim C10: the checksum-file option of validate-checksum defaults to
sha256sum.txt and every filesystem access to it (existence check, open and
read) uses the supplied path verbatim; the path is never the project-root
joined form, which is in fact always a different string; and the
detached-signature default of validate-gpg-signature is sha256sum.txt.sig,
from a subparser that has no project root at all. -/
theorem C10_checksum_file_path_taken_verbatim :
    (∀ scm ig root args, parse_args_validate_checksum none scm ig root =
        Except.ok args → args.checksum_file = "sha256sum.txt") ∧
    (∀ dFn fs args p, Event.checkExists p ∈ (validate_checksum dFn fs args).2 →
      p = args.checksum_file) ∧
    (∀ dFn fs args p, Event.openRead p ∈ (validate_checksum dFn fs args).2 →
      p = args.checksum_file) ∧
    (∀ args : ValidateArgs,
      args.checksum_file ≠ joinPath args.project_root args.checksum_file) ∧
    (∀ cf, (parse_args_validate_gpg_signature none cf).signature_file =
      "sha256sum.txt.sig") := by
  refine ⟨?_, ?_, ?_, ?_, fun cf => rfl⟩
  · intro scm ig root args h
    cases scm with
    | none =>
      simp only [parse_args_validate_checksum] at h
      injection h with h2
      rw [← h2]
      rfl
    | some s =>
      simp only [parse_args_validate_checksum] at h
      split at h
      · injection h with h2
        rw [← h2]
        rfl
      · exact absurd h (by simp)
  · intro dFn fs args p hp
    rcases validate_checksum_trace_cases dFn fs args with h | h | h | h | h <;>
      rw [h] at hp <;> simp [mem_differTrace_iff] at hp <;> exact hp
  · intro dFn fs args p hp
    rcases validate_checksum_trace_cases dFn fs args with h | h | h | h | h <;>
      rw [h] at hp <;> simp [mem_differTrace_iff] at hp <;> exact hp
  · intro args h
    have hlen := congrArg String.length h
    simp only [joinPath, String.length_append] at hlen
    have h1 : ("/" : String).length = 1 := rfl
    omega

theorem C10_witness :
    parse_args_validate_checksum none none false "r" =
      Except.ok { checksum_file := "sha256sum.txt", scm := "auto",
                  ignore_file_list_differences := false,
                  project_root := "r" } ∧
    ({ checksum_file := "sha256sum.txt", scm := "auto",
       ignore_file_list_differences := false,
       project_root := "r" } : ValidateArgs).checksum_file =
      "sha256sum.txt" :=
  ⟨rfl, C10_checksum_file_path_taken_verbatim.1 none false "r" _ rfl⟩

/-- Claim C5: validate_checksum calls verify with the file-list diff argument
equal to the negation of the ignore-file-list-differences flag (every verify
call in its trace carries exactly that Boolean), and the flag defaults to
false when the store_true option is omitted; moreover a verify with diff true
really requests the authoritative set (a failing enumeration aborts it) and
reconciles it against the manifest (an authoritative path absent from the
manifest is reported in the added category).  verify is modelled from the
spec. -/
theorem C5_reconciliation_flag_wiring :
    (∀ cf scm root args, parse_args_validate_checksum cf scm false root =
        Except.ok args → args.ignore_file_list_differences = false) ∧
    (∀ dFn fs args b, Event.verifyCall b ∈ (validate_checksum dFn fs args).2 →
      b = !args.ignore_file_list_differences) ∧
    (∀ dFn fs root d alg manifest e,
      Differ.enumerate d fs root = Except.error e →
      ChecksumFile.verify dFn fs root d alg manifest true = Except.error e) ∧
    (∀ dFn fs root d alg manifest files p,
      Differ.enumerate d fs root = Except.ok files → p ∈ files →
      (manifest.any fun en => en.path == p) = false →
      ∃ ds, ChecksumFile.verify dFn fs root d alg manifest true =
          Except.ok (VerifyResult.mismatch ds) ∧
        Discrepancy.mk Category.added p ∈ ds) := by
  refine ⟨?_, ?_, ?_, ?_⟩
  · intro cf scm root args h
    cases scm with
    | none =>
      simp only [parse_args_validate_checksum] at h
      injection h with h2
      rw [← h2]
    | some s =>
      simp only [parse_args_validate_checksum] at h
      split at h
      · injection h with h2
        rw [← h2]
      · exact absurd h (by simp)
  · intro dFn fs args b hp
    rcases validate_checksum_trace_cases dFn fs args with h | h | h | h | h <;>
      rw [h] at hp <;> simp [mem_differTrace_iff] at hp <;> exact hp
  · intro dFn fs root d alg manifest e h
    simp [ChecksumFile.verify, h]
  · intro dFn fs root d alg manifest files p hEnum hp hAny
    have hmem : Discrepancy.mk Category.added p ∈ addedOf manifest files :=
      List.mem_map_of_mem _ (List.mem_filter.mpr ⟨hp, by rw [hAny]; rfl⟩)
    have hds : Discrepancy.mk Category.added p ∈
        changedOf dFn fs root alg manifest ++ addedOf manifest files
          ++ removedOf fs root manifest :=
      List.mem_append.mpr (Or.inl (List.mem_append.mpr (Or.inr hmem)))
    have hnil := List.ne_nil_of_mem hds
    have hne : (changedOf dFn fs root alg manifest ++ addedOf manifest files
        ++ removedOf fs root manifest).isEmpty = false := by
      cases hfe : (changedOf dFn fs root alg manifest ++ addedOf manifest files
          ++ removedOf fs root manifest).isEmpty
      · rfl
      · exact absurd (List.isEmpty_iff.mp hfe) hnil
    refine ⟨changedOf dFn fs root alg manifest ++ addedOf manifest files
      ++ removedOf fs root manifest, ?_, hds⟩
    have hv : ChecksumFile.verify dFn fs root d alg manifest true =
        Except.ok (mkOutcome (changedOf dFn fs root alg manifest
          ++ addedOf manifest files ++ removedOf fs root manifest)) := by
      simp [ChecksumFile.verify, hEnum]
    rw [hv]
    unfold mkOutcome
    rw [hne]
    rfl

theorem C5_witness :
    parse_args_validate_checksum none none false "r" =
      Except.ok { checksum_file := "sha256sum.txt", scm := "auto",
                  ignore_file_list_differences := false,
                  project_root := "r" } ∧
    ({ checksum_file := "sha256sum.txt", scm := "auto",
       ignore_file_list_differences := false,
       project_root := "r" } : ValidateArgs).ignore_file_list_differences =
      false :=
  ⟨rfl, C5_reconciliation_flag_wiring.1 none none "r" _ rfl⟩

/-- Claim C2 (amended): validate_checksum returns no explicit value (Python
None, which the console-script convention maps to process exit status 0) on
successful verification, printing the success banner; returns 1 when the
checksum file does not exist, before any verification; and returns 2 when
verification reports a mismatch, printing the failure banner followed by every
discrepancy with its category and path. -/
theorem C2_exit_code_translation :
    (∀ dFn fs args d, get_differ fs args.scm args.project_root = Except.ok d →
      fs.pathExists args.checksum_file = false →
      (validate_checksum dFn fs args).1 =
        Except.ok { exit := some 1,
                    output := ["Checksum file does not exist: "
                      ++ args.checksum_file] }) ∧
    (∀ dFn fs args d text manifest ds,
      get_differ fs args.scm args.project_root = Except.ok d →
      fs.contents args.checksum_file = some text →
      ChecksumFile.parse ChecksumFile.defaultAlgorithm text =
        Except.ok manifest →
      ChecksumFile.verify dFn fs args.project_root d
          ChecksumFile.defaultAlgorithm manifest
          (!args.ignore_file_list_differences) =
        Except.ok (VerifyResult.mismatch ds) →
      (validate_checksum dFn fs args).1 =
        Except.ok { exit := some 2,
                    output := "Checksum validation FAILED!"
                      :: ds.map renderDiscrepancy } ∧
      ∀ disc ∈ ds, renderDiscrepancy disc ∈
        "Checksum validation FAILED!" :: ds.map renderDiscrepancy) ∧
    (∀ dFn fs args d text manifest,
      get_differ fs args.scm args.project_root = Except.ok d →
      fs.contents args.checksum_file = some text →
      ChecksumFile.parse ChecksumFile.defaultAlgorithm text =
        Except.ok manifest →
      ChecksumFile.verify dFn fs args.project_root d
          ChecksumFile.defaultAlgorithm manifest
          (!args.ignore_file_list_differences) =
        Except.ok VerifyResult.success →
      (validate_checksum dFn fs args).1 =
        Except.ok { exit := none,
                    output := ["Checksum validation SUCCEEDED!"] }) := by
  refine ⟨?_, ?_, ?_⟩
  · intro dFn fs args d hgd hex
    simp [validate_checksum, hgd, hex]
  · intro dFn fs args d text manifest ds hgd hc hparse hverify
    have hex : fs.pathExists args.checksum_file = true := by
      simp [FS.pathExists, hc]
    refine ⟨?_, ?_⟩
    · simp [validate_checksum, hgd, hex, hc, hparse, hverify]
    · intro disc hd
      exact List.mem_cons_of_mem _ (List.mem_map_of_mem _ hd)
  · intro dFn fs args d text manifest hgd hc hparse hverify
    have hex : fs.pathExists args.checksum_file = true := by
      simp [FS.pathExists, hc]
    simp [validate_checksum, hgd, hex, hc, hparse, hverify]

/-- Claim C2 counterexample: a concrete invocation (project root r with f.txt,
manifest m.txt matching it, verification succeeding) on which the handler
prints the success banner but returns None, not the exit code 0 the claim
states. -/
theorem C2_counterexample :
    (validate_checksum dFnConst fsOk argsOk).1 =
      Except.ok { exit := none,
                  output := ["Checksum validation SUCCEEDED!"] } ∧
    (validate_checksum dFnConst fsOk argsOk).1 ≠
      Except.ok { exit := some 0,
                  output := ["Checksum validation SUCCEEDED!"] } := by
  have h0 : (validate_checksum dFnConst fsOk argsOk).1 =
      Except.ok { exit := none,
                  output := ["Checksum validation SUCCEEDED!"] } := by rfl
  refine ⟨h0, ?_⟩
  rw [h0]
  simp

theorem C2_witness :
    (validate_checksum dFnConst fsOk argsOk).1 =
      Except.ok { exit := none,
                  output := ["Checksum validation SUCCEEDED!"] } :=
  C2_exit_code_translation.2.2 dFnConst fsOk argsOk
    Differ.DirectoryChecksumFileExistenceDiffer manifestTextOk
    [{ digest := hex64, path := "f.txt" }] rfl rfl rfl rfl
